import Mathlib

/-!
Verification development for the semantic-analysis core of a VHDL compiler
front end (overload resolution, formal regions, sequential and concurrent
statement analysis).

The Rust sources are shallowly embedded as Lean definitions.  Pure data and
control flow of the analyzed files are translated directly; collaborator
functions that live outside the analyzed files (the expression analyzer, the
association-element analyzer, the scope, the signature matcher) are modelled
as oracle fields of explicit context structures, as the specification treats
them as consumed contracts.  Mutable state (AST reference slots, the
diagnostic sink) is threaded explicitly.  Source positions are abstracted to
natural numbers; diagnostic messages are represented by tagged constructors
carrying the data interpolated into the source format strings.
-/

set_option autoImplicit false

namespace VhdlSem

/-- Tri-state type-check outcome, `semantic.rs` `TypeCheck`: Ok, NotOk or
Unknown. -/
inductive TypeCheck where
  | ok
  | notOk
  | unknown
deriving DecidableEq, Repr

/-- Modelled from the spec: `TypeCheck::add` lives in `semantic.rs`, which is
not among the analyzed sources.  The spec says the combination rules make any
Unknown input turn the aggregate Unknown unless a NotOk already dominates;
NotOk dominates everything, and the aggregate is Ok only when both inputs are
Ok. -/
def TypeCheck.add : TypeCheck → TypeCheck → TypeCheck
  | TypeCheck.notOk, _ => TypeCheck.notOk
  | _, TypeCheck.notOk => TypeCheck.notOk
  | TypeCheck.unknown, _ => TypeCheck.unknown
  | _, TypeCheck.unknown => TypeCheck.unknown
  | TypeCheck.ok, TypeCheck.ok => TypeCheck.ok

/-- Designator of a declaration, `ast` `Designator`: an identifier, an
operator symbol or a character literal. -/
inductive Designator where
  | identifier (s : String)
  | operatorSymbol (s : String)
  | character (c : Nat)
deriving DecidableEq, Repr

/-- Kind of a named entity, trimmed to the constructors the analyzed files
inspect (`region.rs` `NamedEntityKind` is a consumed contract).  An `object`
carries its interface mode (`none` when it is not an interface object), its
subtype mark and its default flag; `interfaceFile` carries the file type
mark. -/
inductive NamedEntityKind where
  | object (mode : Option Nat) (subtype : Nat) (hasDefault : Bool)
  | interfaceFile (typeMark : Nat)
  | label
  | otherKind (k : Nat)
deriving DecidableEq, Repr

/-- A named entity: a designator together with its kind. -/
structure NamedEntity where
  designator : Designator
  kind : NamedEntityKind
deriving DecidableEq, Repr

/-- Wrapper for an interface object or interface file,
`formal_region.rs` `InterfaceEnt`. -/
structure InterfaceEnt where
  ent : NamedEntity
deriving DecidableEq, Repr

/-- `InterfaceEnt::from_any`: succeeds exactly on objects that carry an
interface mode and on interface files. -/
def InterfaceEnt.from_any (ent : NamedEntity) : Option InterfaceEnt :=
  match ent.kind with
  | NamedEntityKind.object (some _) _ _ => some { ent := ent }
  | NamedEntityKind.interfaceFile _ => some { ent := ent }
  | _ => none

/-- `InterfaceEnt::type_mark`: the subtype mark of an interface object or the
type of an interface file.  The remaining kinds are unreachable in the source
(`unreachable!`); the model returns 0 there. -/
def InterfaceEnt.type_mark (e : InterfaceEnt) : Nat :=
  match e.ent.kind with
  | NamedEntityKind.object _ subtype _ => subtype
  | NamedEntityKind.interfaceFile typeMark => typeMark
  | _ => 0

/-- Diagnostic records, with messages represented as tagged constructors
carrying the interpolated data:
`functionsCannotReturnWithoutValue` is "Functions cannot return without a
value"; `proceduresCannotReturnValue` is "Procedures cannot return a value";
`cannotReturnFromProcess` is "Cannot return from a process"; `ambiguousUse`
is "Ambiguous use of ..." with the "Migth be" candidate list;
`couldNotResolve` is "Could not resolve ..." with the "Does not match"
candidate list; `doesNotMatchTarget` is "... does not match ..." naming the
target type; `noDeclarationOf` is "No declaration of ..."; `kindError` names
an entity of the wrong kind at a use site; `expectedLoopLabelGot` is
"Expected loop label, got ..."; `expectedLoopLabelOverloaded` is "Expected
loop label, got overloaded name ..."; `collab` stands for an opaque
diagnostic appended by a collaborator analysis outside the analyzed files. -/
inductive Diag where
  | functionsCannotReturnWithoutValue (pos : Nat)
  | proceduresCannotReturnValue (pos : Nat)
  | cannotReturnFromProcess (pos : Nat)
  | ambiguousUse (pos : Nat) (designator : Designator) (candidates : List Nat)
  | couldNotResolve (pos : Nat) (designator : Designator) (candidates : List Nat)
  | doesNotMatchTarget (pos : Nat) (designator : Designator) (target : Nat)
  | noDeclarationOf (pos : Nat) (designator : Designator)
  | kindError (pos : Nat) (expected : String) (ent : Nat)
  | expectedLoopLabelGot (pos : Nat) (ent : Nat)
  | expectedLoopLabelOverloaded (pos : Nat) (name : String)
  | collab (id : Nat)
deriving DecidableEq, Repr

/-- Formal region, `formal_region.rs` `FormalRegion`: an ordered,
insertion-order-preserving sequence of interface elements. -/
structure FormalRegion where
  entities : List InterfaceEnt
deriving DecidableEq, Repr

/-- Loop body of `FormalRegion::lookup`: scan in insertion order, return the
first element whose designator equals the given one exactly, otherwise the
"No declaration of ..." diagnostic. -/
def lookupEntities (pos : Nat) (designator : Designator) :
    List InterfaceEnt → Except Diag InterfaceEnt
  | [] => Except.error (Diag.noDeclarationOf pos designator)
  | ent :: rest =>
    if ent.ent.designator = designator then Except.ok ent
    else lookupEntities pos designator rest

/-- `FormalRegion::lookup`. -/
def FormalRegion.lookup (region : FormalRegion) (pos : Nat)
    (designator : Designator) : Except Diag InterfaceEnt :=
  lookupEntities pos designator region.entities

/-- `FormalRegion::is_empty`. -/
def FormalRegion.is_empty (region : FormalRegion) : Bool :=
  region.entities.isEmpty

/-- `FormalRegion::len`. -/
def FormalRegion.len (region : FormalRegion) : Nat :=
  region.entities.length

/-- `FormalRegion::nth`. -/
def FormalRegion.nth (region : FormalRegion) (idx : Nat) : Option InterfaceEnt :=
  region.entities.get? idx

/-- `FormalRegion::add`.  The returned flag records whether the
`debug_assert!(false)` branch was taken: the element is appended whenever
`InterfaceEnt::from_any` succeeds, and otherwise the region is unchanged and
the debug assertion fires.  There is no duplicate-designator check. -/
def FormalRegion.add (region : FormalRegion) (param : NamedEntity) :
    FormalRegion × Bool :=
  match InterfaceEnt.from_any param with
  | some ent => ({ entities := region.entities ++ [ent] }, false)
  | none => (region, true)

/-- Provenance of a reference binding set in the actual-parameter subtree: the
candidate whose formal region guided the parameter-analysis pass (`none` when
the pass was the plain ambient `analyze_parameters`), and whether the pass was
the speculative one running under `NullDiagnostics` inside the candidate
loop. -/
structure Prov where
  source : Option Nat
  isSpec : Bool
deriving DecidableEq, Repr

/-- State of the name-reference slots of the call site actual-parameter
subtree: one entry per slot, `none` when unresolved, otherwise the provenance
of the pass that bound it. -/
abbrev RefState := List (Option Prov)

/-- Effect of one parameter-analysis pass on the reference slots, as an
oracle: `binds src j` tells whether the pass guided by `src` binds slot `j`;
a bound slot records the pass provenance, an unbound slot keeps its previous
value.  The collaborator analyzers that perform the binding live outside the
analyzed files. -/
def applyPass (binds : Option Nat → Nat → Bool) (prov : Prov) :
    Nat → RefState → RefState
  | _, [] => []
  | j, r :: rest =>
    (if binds prov.source j then some prov else r) :: applyPass binds prov (j + 1) rest

/-- `ParametersMut::clear_references`: every variant clears the references of
all of its elements (`clear_references` on each association element, on both
operands, or on the single operand), so the collective effect on the slot
state is to reset every slot. -/
def clear_references (refs : RefState) : RefState :=
  refs.map (fun _ => none)

/-- `ParametersMut`: an association list, the two operands of a binary
operator, or the operand of a unary operator.  Elements and expressions are
opaque identifiers consumed by the collaborator oracles. -/
inductive ParametersMut where
  | associationList (elems : List Nat)
  | binary (lexpr rexpr : Nat)
  | unary (expr : Nat)
deriving DecidableEq, Repr

/-- `ParametersMut::is_empty`: true only for an empty association list. -/
def ParametersMut.is_empty : ParametersMut → Bool
  | ParametersMut.associationList list => list.isEmpty
  | _ => false

/-- `ParametersMut::operator_len`: 1 for unary, 2 for binary, none for an
association list. -/
def ParametersMut.operator_len : ParametersMut → Option Nat
  | ParametersMut.associationList _ => none
  | ParametersMut.unary _ => some 1
  | ParametersMut.binary _ _ => some 2

/-- One candidate of an `OverloadedName`, `region.rs` `OverloadedEnt` as the
overload engine observes it: whether it is a function, its formal region, and
the `signature().match_return_type` test against an optional target type (an
oracle, since signatures are a consumed contract). -/
structure OverloadedEnt where
  isFunction : Bool
  formals : FormalRegion
  matchReturn : Option Nat → Bool

/-- Oracles for the collaborator analyzers invoked by the overload engine:
`assocElemsWithFormal` is the result of `analyze_assoc_elems_with_formal_region`
on the given formal region and elements; `exprWithTargetType` is the result of
`analyze_expression_with_target_type` on the given type mark and expression;
`bindsAt` gives the reference-binding behaviour of the parameter pass guided
by a candidate (or by the ambient scope, `none`); `passDiags` gives the opaque
diagnostics such a pass appends when its sink is not `NullDiagnostics`. -/
structure Ctx where
  assocElemsWithFormal : FormalRegion → List Nat → TypeCheck
  exprWithTargetType : Nat → Nat → TypeCheck
  bindsAt : Option Nat → Nat → Bool
  passDiags : Option Nat → List Nat

/-- Result `TypeCheck` of `analyze_parameters_with_formal_region`: an
association list delegates to the association-element analyzer; a binary
operator checks each operand against the type mark of formal 0 and formal 1,
adding `NotOk` when the formal is missing; a unary operator checks its operand
against formal 0 likewise. -/
def analyzeParametersWithFormalRegionCheck (ctx : Ctx) (formal_region : FormalRegion)
    (parameters : ParametersMut) : TypeCheck :=
  match parameters with
  | ParametersMut.associationList elems => ctx.assocElemsWithFormal formal_region elems
  | ParametersMut.binary lexpr rexpr =>
    let check1 : TypeCheck :=
      match formal_region.nth 0 with
      | some formal => ctx.exprWithTargetType formal.type_mark lexpr
      | none => TypeCheck.notOk
    let check2 : TypeCheck :=
      match formal_region.nth 1 with
      | some formal => ctx.exprWithTargetType formal.type_mark rexpr
      | none => TypeCheck.notOk
    (TypeCheck.ok.add check1).add check2
  | ParametersMut.unary expr =>
    match formal_region.nth 0 with
    | some formal => ctx.exprWithTargetType formal.type_mark expr
    | none => TypeCheck.notOk

/-- Operator arity filter of the candidate loop: a candidate is skipped when
the call site is a unary or binary operator and the candidate formal count
disagrees. -/
def operatorMismatch (parameters : ParametersMut) (name : OverloadedEnt) : Bool :=
  match parameters.operator_len with
  | some len => name.formals.len != len
  | none => false

/-- Candidate loop of `resolve_overloaded_with_target_type`: filter out
procedure/function mismatches and operator-arity mismatches; for each
surviving candidate check the return type and, when it matches, run the
speculative parameter analysis under `NullDiagnostics`; clear the parameter
references after every speculative pass; classify the candidate into the good
bucket, the bad bucket, or the uncertain flag. -/
def resolveLoop (ctx : Ctx) (targetType : Option Nat) (parameters : ParametersMut) :
    List (Nat × OverloadedEnt) → RefState →
    List (Nat × OverloadedEnt) × List (Nat × OverloadedEnt) × Bool × RefState
  | [], refs => ([], [], false, refs)
  | (i, name) :: rest, refs =>
    if name.isFunction ≠ targetType.isSome then
      resolveLoop ctx targetType parameters rest refs
    else if operatorMismatch parameters name then
      resolveLoop ctx targetType parameters rest refs
    else
      let is_correct : TypeCheck :=
        if name.matchReturn targetType then
          analyzeParametersWithFormalRegionCheck ctx name.formals parameters
        else TypeCheck.notOk
      let refs1 : RefState :=
        if name.matchReturn targetType then
          applyPass ctx.bindsAt { source := some i, isSpec := true } 0 refs
        else refs
      let refs2 := clear_references refs1
      let out := resolveLoop ctx targetType parameters rest refs2
      match is_correct with
      | TypeCheck.ok => ((i, name) :: out.1, out.2.1, out.2.2.1, out.2.2.2)
      | TypeCheck.notOk => (out.1, (i, name) :: out.2.1, out.2.2.1, out.2.2.2)
      | TypeCheck.unknown => (out.1, out.2.1, true, out.2.2.2)

/-- State mutated by `resolve_overloaded_with_target_type`: the call-site
reference slot, the parameter-subtree reference slots, and the diagnostic
sink. -/
structure ResolveState where
  reference : Option Nat
  refs : RefState
  diags : List Diag
deriving DecidableEq, Repr

/-- Post-loop resolution policy of `resolve_overloaded_with_target_type`, the
if/else chain over the bucket population: more than one good candidate emits
the ambiguous diagnostic and re-analyzes the parameters for diagnostics; any
uncertain candidate re-analyzes the parameters and yields Unknown; a unique
good candidate is bound and its formal region drives the real parameter
analysis; a unique bad candidate is bound anyway, with either the direct
nullary diagnostics or the real parameter analysis against its formals;
otherwise the could-not-resolve diagnostic lists the bad candidates and the
parameters are re-analyzed against the ambient scope. -/
def resolveDispatch (ctx : Ctx) (targetType : Option Nat) (pos : Nat)
    (designator : Designator) (parameters : ParametersMut) (st : ResolveState)
    (loopOut : List (Nat × OverloadedEnt) × List (Nat × OverloadedEnt) × Bool × RefState) :
    TypeCheck × ResolveState :=
  match loopOut with
  | (good, bad, uncertain, refs) =>
    if 1 < good.length then
      (TypeCheck.unknown,
        { reference := st.reference
          refs := applyPass ctx.bindsAt { source := none, isSpec := false } 0 refs
          diags := st.diags ++ [Diag.ambiguousUse pos designator (good.map Prod.fst)]
            ++ (ctx.passDiags none).map Diag.collab })
    else if uncertain then
      (TypeCheck.unknown,
        { reference := st.reference
          refs := applyPass ctx.bindsAt { source := none, isSpec := false } 0 refs
          diags := st.diags ++ (ctx.passDiags none).map Diag.collab })
    else
      match good with
      | [(i, _ent)] =>
        (TypeCheck.ok,
          { reference := some i
            refs := applyPass ctx.bindsAt { source := some i, isSpec := false } 0 refs
            diags := st.diags ++ (ctx.passDiags (some i)).map Diag.collab })
      | _ =>
        match bad with
        | [(i, ent)] =>
          if parameters.is_empty && ent.formals.is_empty then
            match targetType with
            | some t =>
              (TypeCheck.notOk,
                { reference := some i
                  refs := refs
                  diags := st.diags ++ [Diag.doesNotMatchTarget pos designator t] })
            | none =>
              (TypeCheck.notOk,
                { reference := some i
                  refs := refs
                  diags := st.diags ++ [Diag.couldNotResolve pos designator [i]] })
          else
            (TypeCheck.notOk,
              { reference := some i
                refs := applyPass ctx.bindsAt { source := some i, isSpec := false } 0 refs
                diags := st.diags ++ (ctx.passDiags (some i)).map Diag.collab })
        | _ =>
          (TypeCheck.notOk,
            { reference := st.reference
              refs := applyPass ctx.bindsAt { source := none, isSpec := false } 0 refs
              diags := st.diags ++ [Diag.couldNotResolve pos designator (bad.map Prod.fst)]
                ++ (ctx.passDiags none).map Diag.collab })

/-- `resolve_overloaded_with_target_type`: run the candidate loop over the
overloaded name entities in order, then dispatch on the bucket population.
Fatal short-circuiting of the collaborators is out of scope: the oracles model
runs of the collaborators that complete, which is the situation all claims
speak about ("after resolution completes"). -/
def resolve_overloaded_with_target_type (ctx : Ctx) (overloaded : List OverloadedEnt)
    (targetType : Option Nat) (pos : Nat) (designator : Designator)
    (parameters : ParametersMut) (st : ResolveState) : TypeCheck × ResolveState :=
  resolveDispatch ctx targetType pos designator parameters st
    (resolveLoop ctx targetType parameters overloaded.enum st.refs)

/-- Kind of an entity found by scope lookup, trimmed to what
`check_loop_label` inspects: `AnyEntKind::Label` or anything else. -/
inductive SeqEntKind where
  | label
  | otherKind (k : Nat)
deriving DecidableEq, Repr

/-- An entity returned by scope lookup: its identity and its kind. -/
structure SeqEnt where
  id : Nat
  kind : SeqEntKind
deriving DecidableEq, Repr

/-- Result shape of `scope.lookup`: a single named entity or an overloaded
name. -/
inductive NamedEntities where
  | single (ent : SeqEnt)
  | overloaded (ids : List Nat)
deriving DecidableEq, Repr

/-- Oracles for the collaborators of the sequential-statement analyzer: the
scope lookup used for loop labels (a consumed contract, keyed by the label
identifier; a failed lookup carries the diagnostic the scope built), and the
opaque diagnostics of the expression analyzers. -/
structure SeqCtx where
  lookup : String → Except Diag NamedEntities
  boolDiags : Nat → List Nat
  exprDiags : Nat → List Nat

/-- `check_loop_label`: look the label up in the scope; a single entity is
bound as the unique reference before its kind is checked (a non-Label kind
only adds the "Expected loop label, got ..." diagnostic, the binding is
kept); an overloaded name or a failed lookup adds a diagnostic and leaves the
reference untouched.  The function is total: it cannot abort analysis. -/
def check_loop_label (ctx : SeqCtx) (labelPos : Nat) (labelName : String)
    (reference : Option Nat) (diags : List Diag) : Option Nat × List Diag :=
  match ctx.lookup labelName with
  | Except.ok (NamedEntities.single ent) =>
    if ent.kind = SeqEntKind.label then (some ent.id, diags)
    else (some ent.id, diags ++ [Diag.expectedLoopLabelGot labelPos ent.id])
  | Except.ok (NamedEntities.overloaded _) =>
    (reference, diags ++ [Diag.expectedLoopLabelOverloaded labelPos labelName])
  | Except.error diag => (reference, diags ++ [diag])

/-- `SequentialRoot`: the enclosing construct that governs return-statement
legality. -/
inductive SequentialRoot where
  | process
  | procedure
  | func (ttyp : Nat)
  | unknown
deriving DecidableEq, Repr

/-- A loop label occurrence on an exit or next statement: position, the
identifier, and its mutable reference slot. -/
structure LoopLabel where
  pos : Nat
  name : String
  reference : Option Nat
deriving DecidableEq, Repr

/-- Sequential statements, trimmed to the constructors the claims are about
(return, exit, next); the remaining statement kinds delegate to collaborator
analyzers outside the analyzed behaviour.  Expressions are opaque
identifiers. -/
inductive SequentialStatement where
  | ret (pos : Nat) (expression : Option Nat)
  | exitStmt (loopLabel : Option LoopLabel) (condition : Option Nat)
  | nextStmt (loopLabel : Option LoopLabel) (condition : Option Nat)
deriving DecidableEq, Repr

/-- Observable state of sequential analysis: the diagnostic sink and the
record of expression checks performed, as pairs of the expression and the
expected type handed to the expression analyzer (`none` when the expression
was analyzed without an expected type). -/
structure SeqState where
  diags : List Diag
  checks : List (Nat × Option Nat)
deriving DecidableEq, Repr

/-- Modelled from the spec: the collaborator `expr_with_ttyp` checks the
expression against the expected type and may append diagnostics. -/
def expr_with_ttyp (ctx : SeqCtx) (ttyp : Nat) (expression : Nat) (st : SeqState) : SeqState :=
  { st with
    checks := st.checks ++ [(expression, some ttyp)]
    diags := st.diags ++ (ctx.exprDiags expression).map Diag.collab }

/-- Modelled from the spec: the collaborator `expr_unknown_ttyp` checks the
expression without an expected type and may append diagnostics. -/
def expr_unknown_ttyp (ctx : SeqCtx) (expression : Nat) (st : SeqState) : SeqState :=
  { st with
    checks := st.checks ++ [(expression, none)]
    diags := st.diags ++ (ctx.exprDiags expression).map Diag.collab }

/-- Modelled from the spec: the collaborator `boolean_expr` checks a boolean
condition and may append diagnostics. -/
def boolean_expr (ctx : SeqCtx) (expression : Nat) (st : SeqState) : SeqState :=
  { st with diags := st.diags ++ (ctx.boolDiags expression).map Diag.collab }

/-- `analyze_sequential_statement`, the arms the claims are about.  Return:
under a Function root a present expression is checked against the return type
and a missing one yields "Functions cannot return without a value"; under a
Procedure root a present expression yields "Procedures cannot return a
value"; under a Process root every return yields "Cannot return from a
process"; under an Unknown root a present expression is checked without an
expected type.  Exit and next: an optional loop label goes through
`check_loop_label` (updating the label reference in the statement), then an
optional condition is checked as a boolean expression. -/
def analyze_sequential_statement (ctx : SeqCtx) (sroot : SequentialRoot)
    (statement : SequentialStatement) (st : SeqState) :
    SequentialStatement × SeqState :=
  match statement with
  | SequentialStatement.ret pos expression =>
    match sroot with
    | SequentialRoot.func ttyp =>
      match expression with
      | some e => (statement, expr_with_ttyp ctx ttyp e st)
      | none =>
        (statement,
          { st with diags := st.diags ++ [Diag.functionsCannotReturnWithoutValue pos] })
    | SequentialRoot.procedure =>
      if expression.isSome then
        (statement, { st with diags := st.diags ++ [Diag.proceduresCannotReturnValue pos] })
      else (statement, st)
    | SequentialRoot.process =>
      (statement, { st with diags := st.diags ++ [Diag.cannotReturnFromProcess pos] })
    | SequentialRoot.unknown =>
      match expression with
      | some e => (statement, expr_unknown_ttyp ctx e st)
      | none => (statement, st)
  | SequentialStatement.exitStmt loopLabel condition =>
    let afterLabel : Option LoopLabel × List Diag :=
      match loopLabel with
      | some ll =>
        let r := check_loop_label ctx ll.pos ll.name ll.reference st.diags
        (some { ll with reference := r.1 }, r.2)
      | none => (loopLabel, st.diags)
    let st1 : SeqState := { st with diags := afterLabel.2 }
    let st2 : SeqState :=
      match condition with
      | some e => boolean_expr ctx e st1
      | none => st1
    (SequentialStatement.exitStmt afterLabel.1 condition, st2)
  | SequentialStatement.nextStmt loopLabel condition =>
    let afterLabel : Option LoopLabel × List Diag :=
      match loopLabel with
      | some ll =>
        let r := check_loop_label ctx ll.pos ll.name ll.reference st.diags
        (some { ll with reference := r.1 }, r.2)
      | none => (loopLabel, st.diags)
    let st1 : SeqState := { st with diags := afterLabel.2 }
    let st2 : SeqState :=
      match condition with
      | some e => boolean_expr ctx e st1
      | none => st1
    (SequentialStatement.nextStmt afterLabel.1 condition, st2)

/-- Error channel of the instance analyzer collaborators,
`AnalysisError`: a recoverable diagnostic or a fatal error. -/
inductive ResolveErr where
  | notFatal (d : Diag)
  | fatal
deriving DecidableEq, Repr

/-- Kind of a resolved design unit, trimmed to what `analyze_instance`
inspects; entity and component carry the region their formal regions derive
from. -/
inductive ConcEntKind where
  | entity (r : Nat)
  | component (r : Nat)
  | configuration
  | otherKind (k : Nat)
deriving DecidableEq, Repr

/-- The instantiated unit of an instantiation statement; names are opaque
identifiers (their position is abstracted to the identifier itself). -/
inductive InstantiatedUnit where
  | entity (name : Nat)
  | component (name : Nat)
  | configuration (name : Nat)
deriving DecidableEq, Repr

/-- Analysis events on the generic map and the port map of an instance:
against a derived formal region, or against the ambient scope only. -/
inductive MapPass where
  | genericWithFormal (r : FormalRegion)
  | portWithFormal (r : FormalRegion)
  | genericAmbient
  | portAmbient
deriving DecidableEq, Repr

/-- Observable state of instance analysis: the diagnostic sink and the
ordered record of map-analysis events. -/
structure InstState where
  diags : List Diag
  passes : List MapPass
deriving DecidableEq, Repr

/-- Oracles for the collaborators of `analyze_instance`:
`resolve_selected_name` on a name, `resolve_non_overloaded` on its result (the
expected-kind string only feeds the diagnostic it already carries), the kind
of a resolved entity, and `to_entity_formal` deriving the generic and port
formal regions of an entity or component region. -/
structure InstCtx where
  resolveSelectedName : Nat → Except ResolveErr (List Nat)
  resolveNonOverloaded : List Nat → Nat → Except ResolveErr Nat
  kind : Nat → ConcEntKind
  toEntityFormal : Nat → FormalRegion × FormalRegion

/-- `err.add_to(diagnostics)?`: a non-fatal error is appended to the sink and
analysis continues; a fatal error aborts the enclosing unit. -/
def addTo (err : ResolveErr) (st : InstState) : Except Unit InstState :=
  match err with
  | ResolveErr.notFatal d => Except.ok { st with diags := st.diags ++ [d] }
  | ResolveErr.fatal => Except.error ()

/-- `analyze_instance` of the fuller implementation (`vhdl_lang`).  Entity and
component instantiations resolve the unit name to a single non-overloaded
declaration; on the matching kind the generic map and port map are analyzed
against the derived formal regions; a wrong kind becomes a non-fatal kind
diagnostic; on any error the diagnostic is appended and the maps are not
analyzed.  Configuration instantiations resolve the unit name (wrong kind is
a non-fatal kind diagnostic) and then always analyze both maps against the
ambient scope only. -/
def analyze_instance (ctx : InstCtx) (unit : InstantiatedUnit) (st : InstState) :
    Except Unit InstState :=
  match unit with
  | InstantiatedUnit.entity name =>
    match ctx.resolveSelectedName name with
    | Except.error err => addTo err st
    | Except.ok entities =>
      match ctx.resolveNonOverloaded entities name with
      | Except.error err => addTo err st
      | Except.ok ent =>
        match ctx.kind ent with
        | ConcEntKind.entity r =>
          let gp := ctx.toEntityFormal r
          Except.ok { st with
            passes := st.passes ++ [MapPass.genericWithFormal gp.1, MapPass.portWithFormal gp.2] }
        | _ => addTo (ResolveErr.notFatal (Diag.kindError name "entity" ent)) st
  | InstantiatedUnit.component name =>
    match ctx.resolveSelectedName name with
    | Except.error err => addTo err st
    | Except.ok entities =>
      match ctx.resolveNonOverloaded entities name with
      | Except.error err => addTo err st
      | Except.ok ent =>
        match ctx.kind ent with
        | ConcEntKind.component r =>
          let gp := ctx.toEntityFormal r
          Except.ok { st with
            passes := st.passes ++ [MapPass.genericWithFormal gp.1, MapPass.portWithFormal gp.2] }
        | _ => addTo (ResolveErr.notFatal (Diag.kindError name "component" ent)) st
  | InstantiatedUnit.configuration name =>
    let step : Except Unit InstState :=
      match ctx.resolveSelectedName name with
      | Except.error err => addTo err st
      | Except.ok entities =>
        match ctx.resolveNonOverloaded entities name with
        | Except.error err => addTo err st
        | Except.ok ent =>
          match ctx.kind ent with
          | ConcEntKind.configuration => Except.ok st
          | _ => addTo (ResolveErr.notFatal (Diag.kindError name "configuration" ent)) st
    match step with
    | Except.error e => Except.error e
    | Except.ok st1 =>
      Except.ok { st1 with passes := st1.passes ++ [MapPass.genericAmbient, MapPass.portAmbient] }

namespace ParserImpl

/-- `analyze_instance` of the same-shaped earlier implementation
(`vhdl_parser`): every instantiated-unit arm only resolves the unit name
(appending the diagnostic of a non-fatal failure), and then the generic map
and the port map are always analyzed against the ambient scope only. -/
def analyze_instance (ctx : VhdlSem.InstCtx) (unit : VhdlSem.InstantiatedUnit)
    (st : VhdlSem.InstState) : Except Unit VhdlSem.InstState :=
  let step : Except Unit VhdlSem.InstState :=
    match unit with
    | VhdlSem.InstantiatedUnit.entity name =>
      match ctx.resolveSelectedName name with
      | Except.error err => VhdlSem.addTo err st
      | Except.ok _ => Except.ok st
    | VhdlSem.InstantiatedUnit.component name =>
      match ctx.resolveSelectedName name with
      | Except.error err => VhdlSem.addTo err st
      | Except.ok _ => Except.ok st
    | VhdlSem.InstantiatedUnit.configuration name =>
      match ctx.resolveSelectedName name with
      | Except.error err => VhdlSem.addTo err st
      | Except.ok _ => Except.ok st
  match step with
  | Except.error e => Except.error e
  | Except.ok st1 =>
    Except.ok { st1 with
      passes := st1.passes ++ [VhdlSem.MapPass.genericAmbient, VhdlSem.MapPass.portAmbient] }

end ParserImpl

/-- A reference-slot state is clean when no slot is bound with speculative
provenance. -/
def RefState.clean : RefState → Bool
  | [] => true
  | none :: rest => RefState.clean rest
  | some pr :: rest => !pr.isSpec && RefState.clean rest

theorem clean_map_none (l : RefState) :
    RefState.clean (l.map (fun _ => none)) = true := by
  induction l with
  | nil => rfl
  | cons r rest ih => simpa [RefState.clean] using ih

theorem map_none_applyPass (b : Option Nat → Nat → Bool) (p : Prov) (j : Nat) (l : RefState) :
    (applyPass b p j l).map (fun _ => (none : Option Prov)) = l.map (fun _ => none) := by
  induction l generalizing j with
  | nil => rfl
  | cons r rest ih => simp [applyPass, ih]

theorem clean_applyPass (b : Option Nat → Nat → Bool) (s : Option Nat) (j : Nat) (l : RefState)
    (h : RefState.clean l = true) :
    RefState.clean (applyPass b { source := s, isSpec := false } j l) = true := by
  induction l generalizing j with
  | nil => rfl
  | cons r rest ih =>
    match r with
    | none =>
      simp only [RefState.clean] at h
      by_cases hb : b s j = true <;> simp [applyPass, hb, RefState.clean, ih _ h]
    | some pr =>
      simp only [RefState.clean, Bool.and_eq_true] at h
      by_cases hb : b s j = true <;>
        simp [applyPass, hb, RefState.clean, ih _ h.2, h.1]

theorem clean_clear_references (l : RefState) :
    RefState.clean (clear_references l) = true :=
  clean_map_none l

/-- The candidate loop of `resolve_overloaded_with_target_type` leaves the
parameter reference slots either untouched (when every candidate was
discarded by the filters, so no speculative pass ran) or fully cleared
(references are cleared after every speculative analysis pass). -/
theorem resolveLoop_refs (ctx : Ctx) (targetType : Option Nat) (parameters : ParametersMut)
    (cands : List (Nat × OverloadedEnt)) (refs : RefState) :
    (resolveLoop ctx targetType parameters cands refs).2.2.2 = refs ∨
      (resolveLoop ctx targetType parameters cands refs).2.2.2 = clear_references refs := by
  induction cands generalizing refs with
  | nil => exact Or.inl rfl
  | cons head rest ih =>
    obtain ⟨i, name⟩ := head
    by_cases h1 : name.isFunction ≠ targetType.isSome
    · simpa [resolveLoop, h1] using ih refs
    · by_cases h2 : operatorMismatch parameters name = true
      · simpa [resolveLoop, h1, h2] using ih refs
      · have hbase :
            clear_references (if name.matchReturn targetType = true then
              applyPass ctx.bindsAt { source := some i, isSpec := true } 0 refs else refs)
              = clear_references refs := by
          by_cases hm : name.matchReturn targetType = true
          · rw [if_pos hm]; exact map_none_applyPass _ _ _ _
          · rw [if_neg hm]
        have hrec := ih (clear_references (if name.matchReturn targetType = true then
          applyPass ctx.bindsAt { source := some i, isSpec := true } 0 refs else refs))
        rw [hbase] at hrec
        have hcc : clear_references (clear_references refs) = clear_references refs := by
          simp [clear_references]
        rw [hcc] at hrec
        simp only [resolveLoop, if_neg h1, if_neg h2]
        rcases hic : (if name.matchReturn targetType = true then
            analyzeParametersWithFormalRegionCheck ctx name.formals parameters
          else TypeCheck.notOk) with _ | _ | _ <;>
          simp only [hic, hbase] <;>
          rcases hrec with h3 | h3 <;> simp [h3]

/-- The post-loop dispatch of `resolve_overloaded_with_target_type` only runs
non-speculative parameter passes, so it preserves cleanliness of the
parameter reference slots. -/
theorem clean_resolveDispatch (ctx : Ctx) (targetType : Option Nat) (pos : Nat)
    (designator : Designator) (parameters : ParametersMut) (st : ResolveState)
    (good bad : List (Nat × OverloadedEnt)) (uncertain : Bool) (refs : RefState)
    (h : RefState.clean refs = true) :
    RefState.clean (resolveDispatch ctx targetType pos designator parameters st
      (good, bad, uncertain, refs)).2.refs = true := by
  simp only [resolveDispatch]
  repeat' split
  all_goals first
    | exact h
    | exact clean_applyPass _ _ _ _ h

/-- C1: for every call to `resolve_overloaded_with_target_type` and every
candidate (in particular every discarded or NotOk one), no name-reference in
the call site actual-parameter subtree remains bound by that candidate's
speculative analysis after resolution completes: starting from reference
slots holding no speculative binding, the final slots hold no speculative
binding either, for all resolution outcomes — the parameters' references are
cleared after every speculative analysis pass. -/
theorem no_speculative_binding_survives (ctx : Ctx) (overloaded : List OverloadedEnt)
    (targetType : Option Nat) (pos : Nat) (designator : Designator)
    (parameters : ParametersMut) (st : ResolveState)
    (h : RefState.clean st.refs = true) :
    RefState.clean (resolve_overloaded_with_target_type ctx overloaded targetType pos
      designator parameters st).2.refs = true := by
  unfold resolve_overloaded_with_target_type
  rcases hq : resolveLoop ctx targetType parameters overloaded.enum st.refs with
    ⟨good, bad, uncertain, refs⟩
  have hrefs := resolveLoop_refs ctx targetType parameters overloaded.enum st.refs
  rw [hq] at hrefs
  have hclean : RefState.clean refs = true := by
    rcases hrefs with h3 | h3
    · rw [show refs = st.refs from h3]; exact h
    · rw [show refs = clear_references st.refs from h3]; exact clean_clear_references _
  exact clean_resolveDispatch ctx targetType pos designator parameters st
    good bad uncertain refs hclean

/-- Concrete context for the C1 witness. -/
def c1Ctx : Ctx :=
  { assocElemsWithFormal := fun _ _ => TypeCheck.ok
    exprWithTargetType := fun _ _ => TypeCheck.ok
    bindsAt := fun _ _ => true
    passDiags := fun _ => [] }

/-- Concrete candidate for the C1 witness. -/
def c1Cand : OverloadedEnt :=
  { isFunction := true
    formals := { entities := [] }
    matchReturn := fun _ => true }

/-- Concrete initial state for the C1 witness. -/
def c1St : ResolveState :=
  { reference := none, refs := [none, none], diags := [] }

theorem no_speculative_binding_survives_witness :
    RefState.clean c1St.refs = true ∧
      RefState.clean (resolve_overloaded_with_target_type c1Ctx [c1Cand] (some 0) 5
        (Designator.identifier "f") (ParametersMut.associationList [3]) c1St).2.refs = true :=
  ⟨rfl, no_speculative_binding_survives c1Ctx [c1Cand] (some 0) 5
    (Designator.identifier "f") (ParametersMut.associationList [3]) c1St rfl⟩

/-- Concrete context for the C2 scenarios: the association-element analyzer
reports Ok against an empty formal region and Unknown otherwise. -/
def c2Ctx : Ctx :=
  { assocElemsWithFormal := fun r _ => if r.entities.isEmpty then TypeCheck.ok else TypeCheck.unknown
    exprWithTargetType := fun _ _ => TypeCheck.ok
    bindsAt := fun _ _ => false
    passDiags := fun _ => [] }

/-- Nullary function candidate whose return type matches: classified Ok under
`c2Ctx`. -/
def c2Cand0 : OverloadedEnt :=
  { isFunction := true
    formals := { entities := [] }
    matchReturn := fun _ => true }

/-- Unary-formal function candidate whose parameter check is Unknown under
`c2Ctx`. -/
def c2Cand1 : OverloadedEnt :=
  { isFunction := true
    formals := { entities :=
      [{ ent := { designator := Designator.identifier "x"
                  kind := NamedEntityKind.object (some 0) 0 false } }] }
    matchReturn := fun _ => true }

/-- Initial resolve state for the C2 scenarios. -/
def c2St : ResolveState :=
  { reference := none, refs := [], diags := [] }

/-- Parameters for the C2 scenarios. -/
def c2Params : ParametersMut := ParametersMut.associationList [9]

/-- C2 is false as stated: with candidates `[c2Cand0, c2Cand1]` exactly one
candidate is classified Ok (the good bucket has length 1), yet because the
other candidate is classified Unknown the result is `TypeCheck.unknown` and
the reference slot is left unresolved instead of being bound to the Ok
candidate with result `TypeCheck.ok`. -/
theorem unique_ok_requires_no_unknown_counterexample :
    (resolveLoop c2Ctx (some 0) c2Params ([c2Cand0, c2Cand1].enum) c2St.refs).1.length = 1 ∧
    (resolveLoop c2Ctx (some 0) c2Params ([c2Cand0, c2Cand1].enum) c2St.refs).2.2.1 = true ∧
    resolve_overloaded_with_target_type c2Ctx [c2Cand0, c2Cand1] (some 0) 7
        (Designator.identifier "f") c2Params c2St
      = (TypeCheck.unknown, { reference := none, refs := [], diags := [] }) :=
  ⟨rfl, rfl, rfl⟩

/-- C2 (amended): for every call to `resolve_overloaded_with_target_type`, if
exactly one candidate is classified Ok and no candidate is classified
Unknown, then the reference slot is bound uniquely to that candidate and the
result is `TypeCheck.ok`; if more than one candidate is classified Ok, an
ambiguous-use diagnostic is emitted whose candidate list is exactly the list
of Ok candidates (length at least 2), the reference slot is left as it was
(unresolved), and the result is `TypeCheck.unknown`. -/
theorem unique_ok_binds_and_ambiguity_lists_ok_candidates (ctx : Ctx)
    (overloaded : List OverloadedEnt) (targetType : Option Nat) (pos : Nat)
    (designator : Designator) (parameters : ParametersMut) (st : ResolveState)
    (good bad : List (Nat × OverloadedEnt)) (uncertain : Bool) (refsL : RefState)
    (hloop : resolveLoop ctx targetType parameters overloaded.enum st.refs
      = (good, bad, uncertain, refsL)) :
    (∀ i ent, good = [(i, ent)] → uncertain = false →
      resolve_overloaded_with_target_type ctx overloaded targetType pos designator
          parameters st
        = (TypeCheck.ok,
          { reference := some i
            refs := applyPass ctx.bindsAt { source := some i, isSpec := false } 0 refsL
            diags := st.diags ++ (ctx.passDiags (some i)).map Diag.collab })) ∧
    (1 < good.length →
      resolve_overloaded_with_target_type ctx overloaded targetType pos designator
          parameters st
        = (TypeCheck.unknown,
          { reference := st.reference
            refs := applyPass ctx.bindsAt { source := none, isSpec := false } 0 refsL
            diags := st.diags ++ [Diag.ambiguousUse pos designator (good.map Prod.fst)]
              ++ (ctx.passDiags none).map Diag.collab }) ∧
      2 ≤ (good.map Prod.fst).length) := by
  constructor
  · rintro i ent rfl hunc
    unfold resolve_overloaded_with_target_type
    rw [hloop]
    simp [resolveDispatch, hunc]
  · intro hlen
    refine ⟨?_, by simpa using hlen⟩
    unfold resolve_overloaded_with_target_type
    rw [hloop]
    simp [resolveDispatch, hlen]

theorem unique_ok_binds_and_ambiguity_lists_ok_candidates_witness :
    (resolve_overloaded_with_target_type c2Ctx [c2Cand0] (some 0) 7
        (Designator.identifier "f") c2Params c2St
      = (TypeCheck.ok, { reference := some 0, refs := [], diags := [] })) ∧
    (resolve_overloaded_with_target_type c2Ctx [c2Cand0, c2Cand0] (some 0) 7
        (Designator.identifier "f") c2Params c2St
      = (TypeCheck.unknown,
        { reference := none, refs := []
          diags := [Diag.ambiguousUse 7 (Designator.identifier "f") [0, 1]] })) :=
  ⟨(unique_ok_binds_and_ambiguity_lists_ok_candidates c2Ctx [c2Cand0] (some 0) 7
      (Designator.identifier "f") c2Params c2St [(0, c2Cand0)] [] false [] rfl).1
      0 c2Cand0 rfl rfl,
   ((unique_ok_binds_and_ambiguity_lists_ok_candidates c2Ctx [c2Cand0, c2Cand0] (some 0) 7
      (Designator.identifier "f") c2Params c2St [(0, c2Cand0), (1, c2Cand0)] [] false [] rfl).2
      (by decide)).1⟩

/-- C3: for every call to `resolve_overloaded_with_target_type` in which at
least one candidate is classified Unknown and at most one candidate is
classified Ok, the result is `TypeCheck.unknown`, the reference slot is left
as it was (unresolved), the parameters are re-analyzed non-speculatively, and
no ambiguous-use diagnostic is emitted by the resolution (any ambiguous-use
diagnostic in the final sink was already there before the call). -/
theorem unknown_candidate_suppresses_ambiguity (ctx : Ctx)
    (overloaded : List OverloadedEnt) (targetType : Option Nat) (pos : Nat)
    (designator : Designator) (parameters : ParametersMut) (st : ResolveState)
    (good bad : List (Nat × OverloadedEnt)) (uncertain : Bool) (refsL : RefState)
    (hloop : resolveLoop ctx targetType parameters overloaded.enum st.refs
      = (good, bad, uncertain, refsL))
    (hunc : uncertain = true) (hgood : good.length ≤ 1) :
    resolve_overloaded_with_target_type ctx overloaded targetType pos designator
        parameters st
      = (TypeCheck.unknown,
        { reference := st.reference
          refs := applyPass ctx.bindsAt { source := none, isSpec := false } 0 refsL
          diags := st.diags ++ (ctx.passDiags none).map Diag.collab }) ∧
    (∀ p d cs, Diag.ambiguousUse p d cs ∈
        (resolve_overloaded_with_target_type ctx overloaded targetType pos designator
          parameters st).2.diags →
      Diag.ambiguousUse p d cs ∈ st.diags) := by
  have hmain : resolve_overloaded_with_target_type ctx overloaded targetType pos designator
      parameters st
      = (TypeCheck.unknown,
        { reference := st.reference
          refs := applyPass ctx.bindsAt { source := none, isSpec := false } 0 refsL
          diags := st.diags ++ (ctx.passDiags none).map Diag.collab }) := by
    unfold resolve_overloaded_with_target_type
    rw [hloop]
    simp [resolveDispatch, hunc, Nat.not_lt.mpr hgood]
  refine ⟨hmain, ?_⟩
  intro p d cs hmem
  rw [hmain] at hmem
  rcases List.mem_append.mp hmem with h1 | h1
  · exact h1
  · exfalso
    rcases List.mem_map.mp h1 with ⟨a, _, ha⟩
    exact Diag.noConfusion ha

theorem unknown_candidate_suppresses_ambiguity_witness :
    resolve_overloaded_with_target_type c2Ctx [c2Cand1] (some 0) 7
        (Designator.identifier "g") c2Params c2St
      = (TypeCheck.unknown, { reference := none, refs := [], diags := [] }) :=
  (unknown_candidate_suppresses_ambiguity c2Ctx [c2Cand1] (some 0) 7
    (Designator.identifier "g") c2Params c2St [] [] true [] rfl rfl (by decide)).1

/-- Concrete context for the C4 scenarios: the association-element analyzer
always reports NotOk. -/
def c4Ctx : Ctx :=
  { assocElemsWithFormal := fun _ _ => TypeCheck.notOk
    exprWithTargetType := fun _ _ => TypeCheck.notOk
    bindsAt := fun _ _ => false
    passDiags := fun _ => [] }

/-- Nullary procedure candidate (considered when no target type is
requested). -/
def c4Proc : OverloadedEnt :=
  { isFunction := false
    formals := { entities := [] }
    matchReturn := fun _ => true }

/-- Nullary function candidate (considered when a target type is
requested). -/
def c4Func : OverloadedEnt :=
  { isFunction := true
    formals := { entities := [] }
    matchReturn := fun _ => true }

/-- Initial resolve state for the C4 scenarios. -/
def c4St : ResolveState :=
  { reference := none, refs := [], diags := [] }

/-- Designator for the C4 scenarios. -/
def c4Desig : Designator := Designator.identifier "p"

/-- C4 is false as stated: with no requested target type, a unique NotOk
nullary candidate at a call site with zero actual parameters produces the
could-not-resolve diagnostic carrying the candidate list `[0]`, not the
single direct does-not-match-target-type diagnostic the claim promises for
every such call. -/
theorem nullary_notok_direct_diagnostic_counterexample :
    resolve_overloaded_with_target_type c4Ctx [c4Proc] none 11 c4Desig
        (ParametersMut.associationList []) c4St
      = (TypeCheck.notOk,
        { reference := some 0, refs := []
          diags := [Diag.couldNotResolve 11 c4Desig [0]] }) :=
  rfl

/-- C4 (amended): for every call to `resolve_overloaded_with_target_type`
where exactly one candidate is classified NotOk and no candidate is Ok or
Unknown, the reference is bound to that NotOk candidate anyway and the result
is `TypeCheck.notOk`; if the call site has zero actual parameters and the
candidate has zero formals, then when a target type was requested a single
direct does-not-match-target-type diagnostic is emitted instead of a
candidate list, and when no target type was requested a could-not-resolve
diagnostic listing that single candidate is emitted; otherwise parameter
analysis is re-run against the candidate's formal region (appending its
diagnostics) to surface the mismatch. -/
theorem unique_notok_binds_and_diagnoses (ctx : Ctx) (overloaded : List OverloadedEnt)
    (targetType : Option Nat) (pos : Nat) (designator : Designator)
    (parameters : ParametersMut) (st : ResolveState)
    (good bad : List (Nat × OverloadedEnt)) (uncertain : Bool) (refsL : RefState)
    (i : Nat) (ent : OverloadedEnt)
    (hloop : resolveLoop ctx targetType parameters overloaded.enum st.refs
      = (good, bad, uncertain, refsL))
    (hgood : good = []) (hunc : uncertain = false) (hbad : bad = [(i, ent)]) :
    ((parameters.is_empty && ent.formals.is_empty) = true →
      (∀ t, targetType = some t →
        resolve_overloaded_with_target_type ctx overloaded targetType pos designator
            parameters st
          = (TypeCheck.notOk,
            { reference := some i, refs := refsL
              diags := st.diags ++ [Diag.doesNotMatchTarget pos designator t] })) ∧
      (targetType = none →
        resolve_overloaded_with_target_type ctx overloaded targetType pos designator
            parameters st
          = (TypeCheck.notOk,
            { reference := some i, refs := refsL
              diags := st.diags ++ [Diag.couldNotResolve pos designator [i]] }))) ∧
    ((parameters.is_empty && ent.formals.is_empty) = false →
      resolve_overloaded_with_target_type ctx overloaded targetType pos designator
          parameters st
        = (TypeCheck.notOk,
          { reference := some i
            refs := applyPass ctx.bindsAt { source := some i, isSpec := false } 0 refsL
            diags := st.diags ++ (ctx.passDiags (some i)).map Diag.collab })) := by
  subst hgood hunc hbad
  constructor
  · intro hemp
    constructor
    · rintro t rfl
      unfold resolve_overloaded_with_target_type
      rw [hloop]
      simp [resolveDispatch, hemp]
    · rintro rfl
      unfold resolve_overloaded_with_target_type
      rw [hloop]
      simp [resolveDispatch, hemp]
  · intro hemp
    unfold resolve_overloaded_with_target_type
    rw [hloop]
    simp [resolveDispatch, hemp]

theorem unique_notok_binds_and_diagnoses_witness :
    (resolve_overloaded_with_target_type c4Ctx [c4Func] (some 3) 11 c4Desig
        (ParametersMut.associationList []) c4St
      = (TypeCheck.notOk,
        { reference := some 0, refs := []
          diags := [Diag.doesNotMatchTarget 11 c4Desig 3] })) ∧
    (resolve_overloaded_with_target_type c4Ctx [c4Proc] none 11 c4Desig
        (ParametersMut.associationList [8]) c4St
      = (TypeCheck.notOk, { reference := some 0, refs := [], diags := [] })) :=
  ⟨((unique_notok_binds_and_diagnoses c4Ctx [c4Func] (some 3) 11 c4Desig
      (ParametersMut.associationList []) c4St [] [(0, c4Func)] false []
      0 c4Func rfl rfl rfl rfl).1 (by decide)).1 3 rfl,
   (unique_notok_binds_and_diagnoses c4Ctx [c4Proc] none 11 c4Desig
      (ParametersMut.associationList [8]) c4St [] [(0, c4Proc)] false []
      0 c4Proc rfl rfl rfl rfl).2 (by decide)⟩

/-- C5: for every return statement analyzed by
`analyze_sequential_statement`: under a Function root a valueless return
yields exactly the "Functions cannot return without a value" diagnostic, and
a return with an expression has that expression checked against the
function's return type with only collaborator diagnostics appended (in
particular no such return diagnostic); under a Procedure root a return with
an expression yields "Procedures cannot return a value"; under a Process
root every return (with or without an expression) yields "Cannot return from
a process"; under an Unknown root a returned expression is type-checked
without an expected type and only collaborator diagnostics are appended for
the return itself. -/
theorem return_statement_root_rules (ctx : SeqCtx) (pos e ttyp : Nat)
    (expression : Option Nat) (st : SeqState) :
    (analyze_sequential_statement ctx (SequentialRoot.func ttyp)
        (SequentialStatement.ret pos none) st
      = (SequentialStatement.ret pos none,
        { diags := st.diags ++ [Diag.functionsCannotReturnWithoutValue pos]
          checks := st.checks })) ∧
    (analyze_sequential_statement ctx (SequentialRoot.func ttyp)
        (SequentialStatement.ret pos (some e)) st
      = (SequentialStatement.ret pos (some e),
        { diags := st.diags ++ (ctx.exprDiags e).map Diag.collab
          checks := st.checks ++ [(e, some ttyp)] })) ∧
    (∀ d, d ∈ ((analyze_sequential_statement ctx (SequentialRoot.func ttyp)
        (SequentialStatement.ret pos (some e)) st).2.diags).drop st.diags.length →
      ∃ id, d = Diag.collab id) ∧
    (analyze_sequential_statement ctx SequentialRoot.procedure
        (SequentialStatement.ret pos (some e)) st
      = (SequentialStatement.ret pos (some e),
        { diags := st.diags ++ [Diag.proceduresCannotReturnValue pos]
          checks := st.checks })) ∧
    (analyze_sequential_statement ctx SequentialRoot.process
        (SequentialStatement.ret pos expression) st
      = (SequentialStatement.ret pos expression,
        { diags := st.diags ++ [Diag.cannotReturnFromProcess pos]
          checks := st.checks })) ∧
    (analyze_sequential_statement ctx SequentialRoot.unknown
        (SequentialStatement.ret pos (some e)) st
      = (SequentialStatement.ret pos (some e),
        { diags := st.diags ++ (ctx.exprDiags e).map Diag.collab
          checks := st.checks ++ [(e, none)] })) ∧
    (∀ d, d ∈ ((analyze_sequential_statement ctx SequentialRoot.unknown
        (SequentialStatement.ret pos (some e)) st).2.diags).drop st.diags.length →
      ∃ id, d = Diag.collab id) := by
  refine ⟨rfl, rfl, ?_, rfl, ?_, rfl, ?_⟩
  · intro d hd
    simp only [analyze_sequential_statement, expr_with_ttyp, List.drop_left] at hd
    rcases List.mem_map.mp hd with ⟨id, _, hid⟩
    exact ⟨id, hid.symm⟩
  · cases expression <;> rfl
  · intro d hd
    simp only [analyze_sequential_statement, expr_unknown_ttyp, List.drop_left] at hd
    rcases List.mem_map.mp hd with ⟨id, _, hid⟩
    exact ⟨id, hid.symm⟩

/-- Concrete sequential context for the C5 witness. -/
def c5Ctx : SeqCtx :=
  { lookup := fun _ => Except.ok (NamedEntities.single { id := 0, kind := SeqEntKind.label })
    boolDiags := fun _ => []
    exprDiags := fun _ => [] }

/-- Concrete initial sequential state for the C5 witness. -/
def c5St : SeqState := { diags := [], checks := [] }

theorem return_statement_root_rules_witness :
    analyze_sequential_statement c5Ctx (SequentialRoot.func 2)
        (SequentialStatement.ret 4 none) c5St
      = (SequentialStatement.ret 4 none,
        { diags := [Diag.functionsCannotReturnWithoutValue 4], checks := [] }) :=
  (return_statement_root_rules c5Ctx 4 0 2 none c5St).1

/-- C10: for every loop-label check performed by `check_loop_label` (for an
exit or next statement with a loop label): when scope lookup yields a single
named entity the label's reference is bound to that entity even when the
entity's kind is not Label (the "Expected loop label" diagnostic is emitted
but the binding is kept); when the lookup yields an overloaded name, or
fails, no binding is set and only a diagnostic is appended; in every case the
function returns a value (it has no fatal channel), so analysis of remaining
statements continues. -/
theorem loop_label_binding_rules (ctx : SeqCtx) (labelPos : Nat) (labelName : String)
    (reference : Option Nat) (diags : List Diag) :
    (∀ ent, ctx.lookup labelName = Except.ok (NamedEntities.single ent) →
      (check_loop_label ctx labelPos labelName reference diags).1 = some ent.id ∧
      (ent.kind = SeqEntKind.label →
        check_loop_label ctx labelPos labelName reference diags = (some ent.id, diags)) ∧
      (ent.kind ≠ SeqEntKind.label →
        check_loop_label ctx labelPos labelName reference diags
          = (some ent.id, diags ++ [Diag.expectedLoopLabelGot labelPos ent.id]))) ∧
    (∀ ids, ctx.lookup labelName = Except.ok (NamedEntities.overloaded ids) →
      check_loop_label ctx labelPos labelName reference diags
        = (reference, diags ++ [Diag.expectedLoopLabelOverloaded labelPos labelName])) ∧
    (∀ d, ctx.lookup labelName = Except.error d →
      check_loop_label ctx labelPos labelName reference diags
        = (reference, diags ++ [d])) := by
  refine ⟨?_, ?_, ?_⟩
  · intro ent hl
    by_cases hk : ent.kind = SeqEntKind.label
    · refine ⟨?_, fun _ => ?_, fun hne => absurd hk hne⟩ <;>
        simp [check_loop_label, hl, hk]
    · refine ⟨?_, fun heq => absurd heq hk, fun _ => ?_⟩ <;>
        simp [check_loop_label, hl, hk]
  · intro ids hl
    simp [check_loop_label, hl]
  · intro d hl
    simp [check_loop_label, hl]

/-- Concrete sequential context for the C10 witness: the lookup finds a
single entity whose kind is not Label. -/
def c10Ctx : SeqCtx :=
  { lookup := fun _ => Except.ok (NamedEntities.single { id := 5, kind := SeqEntKind.otherKind 1 })
    boolDiags := fun _ => []
    exprDiags := fun _ => [] }

theorem loop_label_binding_rules_witness :
    check_loop_label c10Ctx 2 "outer" none []
      = (some 5, [Diag.expectedLoopLabelGot 2 5]) :=
  ((loop_label_binding_rules c10Ctx 2 "outer" none []).1
    { id := 5, kind := SeqEntKind.otherKind 1 } rfl).2.2 (by decide)

/-- Concrete instance context for the C6 counterexample: resolving the
instantiated unit's name fails with a non-fatal diagnostic. -/
def c6Ctx : InstCtx :=
  { resolveSelectedName := fun _ => Except.error (ResolveErr.notFatal (Diag.collab 0))
    resolveNonOverloaded := fun _ _ => Except.error ResolveErr.fatal
    kind := fun _ => ConcEntKind.otherKind 0
    toEntityFormal := fun _ => ({ entities := [] }, { entities := [] }) }

/-- C6 is false as stated: for an entity instantiation whose unit name fails
to resolve, the diagnostic is emitted without a fatal abort, but the generic
map and the port map are not analyzed at all (the pass record stays empty),
rather than being analyzed against the ambient scope. -/
theorem instance_failure_maps_counterexample :
    analyze_instance c6Ctx (InstantiatedUnit.entity 0) { diags := [], passes := [] }
      = Except.ok { diags := [Diag.collab 0], passes := [] } :=
  rfl

/-- C6 (amended): for every instantiation statement, when resolving the
instantiated unit's name fails with a non-fatal error — whether at selected
name resolution, at non-overloaded resolution, or because the name resolves
to a declaration of the wrong kind — a diagnostic is emitted without a fatal
abort; for entity and component instantiations the instance's generic map
and port map are then not analyzed at all, while for configuration
instantiations they are still analyzed against the ambient scope only. -/
theorem instance_resolution_failure_behaviour (ctx : InstCtx) (name : Nat)
    (st : InstState) :
    (∀ d, ctx.resolveSelectedName name = Except.error (ResolveErr.notFatal d) →
      analyze_instance ctx (InstantiatedUnit.entity name) st
        = Except.ok { diags := st.diags ++ [d], passes := st.passes } ∧
      analyze_instance ctx (InstantiatedUnit.component name) st
        = Except.ok { diags := st.diags ++ [d], passes := st.passes } ∧
      analyze_instance ctx (InstantiatedUnit.configuration name) st
        = Except.ok
          { diags := st.diags ++ [d]
            passes := st.passes ++ [MapPass.genericAmbient, MapPass.portAmbient] }) ∧
    (∀ entities d, ctx.resolveSelectedName name = Except.ok entities →
      ctx.resolveNonOverloaded entities name = Except.error (ResolveErr.notFatal d) →
      analyze_instance ctx (InstantiatedUnit.entity name) st
        = Except.ok { diags := st.diags ++ [d], passes := st.passes } ∧
      analyze_instance ctx (InstantiatedUnit.component name) st
        = Except.ok { diags := st.diags ++ [d], passes := st.passes } ∧
      analyze_instance ctx (InstantiatedUnit.configuration name) st
        = Except.ok
          { diags := st.diags ++ [d]
            passes := st.passes ++ [MapPass.genericAmbient, MapPass.portAmbient] }) ∧
    (∀ entities ent, ctx.resolveSelectedName name = Except.ok entities →
      ctx.resolveNonOverloaded entities name = Except.ok ent →
      ((∀ r, ctx.kind ent ≠ ConcEntKind.entity r) →
        analyze_instance ctx (InstantiatedUnit.entity name) st
          = Except.ok { diags := st.diags ++ [Diag.kindError name "entity" ent]
                        passes := st.passes }) ∧
      ((∀ r, ctx.kind ent ≠ ConcEntKind.component r) →
        analyze_instance ctx (InstantiatedUnit.component name) st
          = Except.ok { diags := st.diags ++ [Diag.kindError name "component" ent]
                        passes := st.passes }) ∧
      (ctx.kind ent ≠ ConcEntKind.configuration →
        analyze_instance ctx (InstantiatedUnit.configuration name) st
          = Except.ok
            { diags := st.diags ++ [Diag.kindError name "configuration" ent]
              passes := st.passes ++ [MapPass.genericAmbient, MapPass.portAmbient] })) := by
  refine ⟨?_, ?_, ?_⟩
  · intro d h
    refine ⟨?_, ?_, ?_⟩ <;> simp [analyze_instance, h, addTo]
  · intro entities d h1 h2
    refine ⟨?_, ?_, ?_⟩ <;> simp [analyze_instance, h1, h2, addTo]
  · intro entities ent h1 h2
    refine ⟨?_, ?_, ?_⟩
    · intro hne
      rcases hk : ctx.kind ent with r | r | _ | k
      · exact absurd hk (hne r)
      · simp [analyze_instance, h1, h2, hk, addTo]
      · simp [analyze_instance, h1, h2, hk, addTo]
      · simp [analyze_instance, h1, h2, hk, addTo]
    · intro hne
      rcases hk : ctx.kind ent with r | r | _ | k
      · simp [analyze_instance, h1, h2, hk, addTo]
      · exact absurd hk (hne r)
      · simp [analyze_instance, h1, h2, hk, addTo]
      · simp [analyze_instance, h1, h2, hk, addTo]
    · intro hne
      rcases hk : ctx.kind ent with r | r | _ | k
      · simp [analyze_instance, h1, h2, hk, addTo]
      · simp [analyze_instance, h1, h2, hk, addTo]
      · exact absurd hk hne
      · simp [analyze_instance, h1, h2, hk, addTo]

/-- Concrete instance context where non-overloaded resolution fails with a
non-fatal diagnostic (e.g., the name is overloaded). -/
def c6nCtx : InstCtx :=
  { resolveSelectedName := fun _ => Except.ok [3]
    resolveNonOverloaded := fun _ _ => Except.error (ResolveErr.notFatal (Diag.collab 1))
    kind := fun _ => ConcEntKind.otherKind 0
    toEntityFormal := fun _ => ({ entities := [] }, { entities := [] }) }

/-- Concrete instance context where the name resolves to a declaration of
the wrong kind (a configuration where an entity is expected). -/
def c6kCtx : InstCtx :=
  { resolveSelectedName := fun _ => Except.ok [7]
    resolveNonOverloaded := fun _ _ => Except.ok 7
    kind := fun _ => ConcEntKind.configuration
    toEntityFormal := fun _ => ({ entities := [] }, { entities := [] }) }

theorem instance_resolution_failure_behaviour_witness :
    (analyze_instance c6Ctx (InstantiatedUnit.configuration 0) { diags := [], passes := [] }
      = Except.ok
        { diags := [Diag.collab 0]
          passes := [MapPass.genericAmbient, MapPass.portAmbient] }) ∧
    (analyze_instance c6nCtx (InstantiatedUnit.entity 0) { diags := [], passes := [] }
      = Except.ok { diags := [Diag.collab 1], passes := [] }) ∧
    (analyze_instance c6kCtx (InstantiatedUnit.entity 0) { diags := [], passes := [] }
      = Except.ok { diags := [Diag.kindError 0 "entity" 7], passes := [] }) :=
  ⟨((instance_resolution_failure_behaviour c6Ctx 0 { diags := [], passes := [] }).1
      (Diag.collab 0) rfl).2.2,
   ((instance_resolution_failure_behaviour c6nCtx 0 { diags := [], passes := [] }).2.1
      [3] (Diag.collab 1) rfl rfl).1,
   ((instance_resolution_failure_behaviour c6kCtx 0 { diags := [], passes := [] }).2.2
      [7] 7 rfl rfl).1 (fun r h => ConcEntKind.noConfusion h)⟩

/-- Generic formal region of the entity used in the C8 scenario. -/
def c8Generics : FormalRegion :=
  { entities := [{ ent := { designator := Designator.identifier "g"
                            kind := NamedEntityKind.object (some 0) 2 false } }] }

/-- Port formal region of the entity used in the C8 scenario. -/
def c8Ports : FormalRegion :=
  { entities := [{ ent := { designator := Designator.identifier "clk"
                            kind := NamedEntityKind.object (some 1) 3 false } }] }

/-- Concrete instance context for the C8 scenario: the unit name resolves to
a single entity declaration whose formal regions are `c8Generics` and
`c8Ports`. -/
def c8Ctx : InstCtx :=
  { resolveSelectedName := fun _ => Except.ok [7]
    resolveNonOverloaded := fun _ _ => Except.ok 7
    kind := fun _ => ConcEntKind.entity 4
    toEntityFormal := fun _ => (c8Generics, c8Ports) }

/-- C8: the two same-shaped implementations of concurrent-statement analysis
are not equivalent on instantiation statements: on the same input the fuller
implementation resolves the instantiated unit to a declaration of the
matching kind and analyzes the generic and port maps against the unit's
derived formal regions, while the earlier implementation only resolves the
unit name and analyzes the generic and port maps against the ambient scope
only. -/
theorem duplicate_instance_analyses_differ :
    analyze_instance c8Ctx (InstantiatedUnit.entity 0) { diags := [], passes := [] }
      = Except.ok
        { diags := []
          passes := [MapPass.genericWithFormal c8Generics, MapPass.portWithFormal c8Ports] } ∧
    ParserImpl.analyze_instance c8Ctx (InstantiatedUnit.entity 0) { diags := [], passes := [] }
      = Except.ok { diags := [], passes := [MapPass.genericAmbient, MapPass.portAmbient] } :=
  ⟨rfl, rfl⟩

/-- Interface object used in the C7 scenarios. -/
def c7Iface : NamedEntity :=
  { designator := Designator.identifier "x"
    kind := NamedEntityKind.object (some 0) 1 false }

/-- Region already containing an element with designator `x`. -/
def c7Region : FormalRegion :=
  { entities := [{ ent := c7Iface }] }

/-- C7 is false as stated: adding to a `FormalRegion` a declaration whose
designator duplicates one already present is silently accepted into the
element sequence (the designator `x` now occurs twice) and the debug
assertion does not fire — the assertion only guards against non-interface
declarations, not duplicates. -/
theorem formal_region_duplicate_add_counterexample :
    FormalRegion.add c7Region c7Iface
      = ({ entities := [{ ent := c7Iface }, { ent := c7Iface }] }, false) ∧
    ((FormalRegion.add c7Region c7Iface).1.entities.filter
      (fun e => e.ent.designator = Designator.identifier "x")).length = 2 :=
  ⟨rfl, rfl⟩

/-- C7 (amended): for every `FormalRegion` and every call to
`FormalRegion.add`, adding a declaration that is not an interface object or
interface file is caught by the debug assertion and never enters the
element sequence; a declaration accepted by `InterfaceEnt::from_any` is
appended unconditionally — in particular duplicate designators are not
checked and are silently accepted. -/
theorem formal_region_add_guards_kind_not_duplicates (region : FormalRegion)
    (param : NamedEntity) :
    (InterfaceEnt.from_any param = none →
      FormalRegion.add region param = (region, true)) ∧
    (∀ e, InterfaceEnt.from_any param = some e →
      FormalRegion.add region param = ({ entities := region.entities ++ [e] }, false)) := by
  constructor
  · intro h
    unfold FormalRegion.add
    rw [h]
  · intro e h
    unfold FormalRegion.add
    rw [h]

/-- Non-interface declaration used in the C7 witness. -/
def c7Label : NamedEntity :=
  { designator := Designator.identifier "x", kind := NamedEntityKind.label }

theorem formal_region_add_guards_kind_not_duplicates_witness :
    FormalRegion.add c7Region c7Label = (c7Region, true) ∧
    FormalRegion.add c7Region c7Iface
      = ({ entities := c7Region.entities ++ [{ ent := c7Iface }] }, false) :=
  ⟨(formal_region_add_guards_kind_not_duplicates c7Region c7Label).1 rfl,
   (formal_region_add_guards_kind_not_duplicates c7Region c7Iface).2 { ent := c7Iface } rfl⟩

theorem lookupEntities_error_of_no_match (pos : Nat) (d : Designator)
    (l : List InterfaceEnt) (h : ∀ e ∈ l, e.ent.designator ≠ d) :
    lookupEntities pos d l = Except.error (Diag.noDeclarationOf pos d) := by
  induction l with
  | nil => rfl
  | cons ent rest ih =>
    have h1 := h ent (List.mem_cons_self ent rest)
    simp only [lookupEntities, if_neg h1]
    exact ih (fun e he => h e (List.mem_cons_of_mem ent he))

theorem lookupEntities_ok_first_match (pos : Nat) (d : Designator)
    (l : List InterfaceEnt) (e : InterfaceEnt)
    (h : lookupEntities pos d l = Except.ok e) :
    e.ent.designator = d ∧
      ∃ pre post, l = pre ++ e :: post ∧ ∀ x ∈ pre, x.ent.designator ≠ d := by
  induction l with
  | nil => exact Except.noConfusion h
  | cons ent rest ih =>
    by_cases hd : ent.ent.designator = d
    · rw [lookupEntities, if_pos hd] at h
      obtain rfl : ent = e := Except.ok.inj h
      exact ⟨hd, [], rest, rfl, by intro x hx; exact absurd hx (List.not_mem_nil x)⟩
    · rw [lookupEntities, if_neg hd] at h
      obtain ⟨he, pre, post, hl, hpre⟩ := ih h
      refine ⟨he, ent :: pre, post, by rw [hl, List.cons_append], ?_⟩
      intro x hx
      rcases List.mem_cons.mp hx with rfl | hx2
      · exact hd
      · exact hpre x hx2

theorem lookupEntities_total (pos : Nat) (d : Designator) (l : List InterfaceEnt) :
    (∃ e, lookupEntities pos d l = Except.ok e) ∨
      lookupEntities pos d l = Except.error (Diag.noDeclarationOf pos d) := by
  induction l with
  | nil => exact Or.inr rfl
  | cons ent rest ih =>
    by_cases hd : ent.ent.designator = d
    · exact Or.inl ⟨ent, by rw [lookupEntities, if_pos hd]⟩
    · rcases ih with ⟨e, he⟩ | he
      · exact Or.inl ⟨e, by rw [lookupEntities, if_neg hd]; exact he⟩
      · exact Or.inr (by rw [lookupEntities, if_neg hd]; exact he)

/-- C9: `FormalRegion.lookup` is total — it either returns an element or the
"No declaration of ..." diagnostic, never anything else; when it returns an
element, that element's designator equals the given designator exactly and
it is the earliest-inserted matching element (every element inserted before
it has a different designator — so with duplicate designators present the
earliest-inserted one is returned); when no element matches, it returns the
"No declaration of ..." error diagnostic. -/
theorem formal_region_lookup_first_match (region : FormalRegion) (pos : Nat)
    (d : Designator) :
    ((∃ e, region.lookup pos d = Except.ok e) ∨
      region.lookup pos d = Except.error (Diag.noDeclarationOf pos d)) ∧
    (∀ e, region.lookup pos d = Except.ok e →
      e.ent.designator = d ∧
        ∃ pre post, region.entities = pre ++ e :: post ∧
          ∀ x ∈ pre, x.ent.designator ≠ d) ∧
    ((∀ e ∈ region.entities, e.ent.designator ≠ d) →
      region.lookup pos d = Except.error (Diag.noDeclarationOf pos d)) :=
  ⟨lookupEntities_total pos d region.entities,
   fun e h => lookupEntities_ok_first_match pos d region.entities e h,
   fun h => lookupEntities_error_of_no_match pos d region.entities h⟩

/-- Region with duplicate designators used in the C9 witness: two elements
named `a` (with different type marks) and one named `b`. -/
def c9Region : FormalRegion :=
  { entities :=
      [{ ent := { designator := Designator.identifier "a"
                  kind := NamedEntityKind.object (some 0) 1 false } },
       { ent := { designator := Designator.identifier "a"
                  kind := NamedEntityKind.object (some 0) 2 false } },
       { ent := { designator := Designator.identifier "b"
                  kind := NamedEntityKind.object (some 0) 3 false } }] }

theorem formal_region_lookup_first_match_witness :
    FormalRegion.lookup c9Region 3 (Designator.identifier "z")
      = Except.error (Diag.noDeclarationOf 3 (Designator.identifier "z")) ∧
    (FormalRegion.lookup c9Region 3 (Designator.identifier "a")
        = Except.ok { ent := { designator := Designator.identifier "a"
                               kind := NamedEntityKind.object (some 0) 1 false } } ∧
      ({ ent := { designator := Designator.identifier "a"
                  kind := NamedEntityKind.object (some 0) 1 false } }
          : InterfaceEnt).ent.designator = Designator.identifier "a") :=
  ⟨(formal_region_lookup_first_match c9Region 3 (Designator.identifier "z")).2.2
      (by decide),
   ⟨rfl,
    ((formal_region_lookup_first_match c9Region 3 (Designator.identifier "a")).2.1
      { ent := { designator := Designator.identifier "a"
                 kind := NamedEntityKind.object (some 0) 1 false } } rfl).1⟩⟩

end VhdlSem
